import Mathlib

/-!
# Verification of the candidate-screener storage layer

Shallow embedding of the storage component of the `candidate-screener`
repository (`src/utils/storageUtils.js`, `src/controllers/audioController.js`,
`src/utils/pdfUtils.js`, and the upload filter middleware), together with
proofs and refutations of the specification's claims about it.

Modelling conventions:
* JavaScript strings are Lean `String`s; `startsWith` / `endsWith` are embedded
  as executable prefix/suffix tests on the character lists.
* ISO date strings stored in `processed_at` are modelled by their parsed
  millisecond values (`Int`), since `new Date` on the ISO strings the program
  writes is strictly monotone in the string; `null`/absent is `Option.none`.
* `Array.prototype.sort` (required to be stable by ECMAScript) is modelled as
  Mathlib's stable `List.insertionSort`, inserting an earlier element before a
  later one exactly when the JS comparator returns a value `≤ 0` on the pair.
* Fallible I/O (directory listing, S3 calls, JSON reads) is modelled by
  passing the outcome of each underlying call as an `Except`/`Option` input.
-/

/-- The six artifact kinds a session can own
(`storageUtils.js` slots: audio, transcript, profile, metadata, html, pdf). -/
inductive ArtifactKind where
  | audio
  | transcript
  | profile
  | metadata
  | html
  | pdf
  deriving DecidableEq, Repr

/-- Executable character-list prefix test, used to embed JavaScript's
`String.prototype.startsWith` / (via reversal) `endsWith`. -/
def charsIsPre : List Char → List Char → Bool
  | [], _ => true
  | _ :: _, [] => false
  | a :: as, b :: bs => a == b && charsIsPre as bs

/-- Embedding of JavaScript `s.startsWith(p)`. -/
def strStartsWith (s p : String) : Bool :=
  charsIsPre p.data s.data

/-- Embedding of JavaScript `s.endsWith(p)`: `p` is a suffix of `s`,
checked on the reversed character lists. -/
def strEndsWith (s p : String) : Bool :=
  charsIsPre p.data.reverse s.data.reverse

/-- The ordered filename-classification rules of
`storageUtils.js` lines 335–353 (filesystem) and 547–565 (S3), which are
textually identical: `audio_` prefix plus `.mp3` suffix, exact
`transcript.txt`, exact `candidate_profile.json`, exact `metadata.json`,
`.html` suffix, `.pdf` suffix; first match wins, anything else is ignored. -/
def classifyFile (file : String) : Option ArtifactKind :=
  if strStartsWith file "audio_" && strEndsWith file ".mp3" then some .audio
  else if file = "transcript.txt" then some .transcript
  else if file = "candidate_profile.json" then some .profile
  else if file = "metadata.json" then some .metadata
  else if strEndsWith file ".html" then some .html
  else if strEndsWith file ".pdf" then some .pdf
  else none

/-- Helper for `extname`: the suffix of a character list starting at its last
dot, if any. -/
def lastDotSuffix : List Char → Option (List Char)
  | [] => none
  | c :: rest =>
    match lastDotSuffix rest with
    | some e => some e
    | none => if c = '.' then some (c :: rest) else none

/-- Embedding of Node's `path.extname` on a basename: the substring from the
last `.` to the end, and `""` when there is no dot or the only dot is the
leading character. -/
def extname (s : String) : String :=
  match s.data with
  | [] => ""
  | _ :: rest =>
    match lastDotSuffix rest with
    | some e => String.mk e
    | none => ""

/-- Embeds `storageUtils.js` line 95 / 155:
`path.extname(audioFile.originalname) || '.mp3'`. -/
def audioExtension (originalname : String) : String :=
  if extname originalname = "" then ".mp3" else extname originalname

/-- Embeds `storageUtils.js` line 96 / 156: `` `audio_${sessionId}${audioExtension}` ``. -/
def audioFilename (sessionId ext : String) : String :=
  "audio_" ++ sessionId ++ ext

/-- Character-wise ASCII lowercasing, embedding `String.prototype.toLowerCase`
on the ASCII extensions it is applied to. -/
def lowerStr (s : String) : String :=
  String.mk (s.data.map Char.toLower)

/-- The upload filter of the multer middleware: a file is accepted when its
mimetype is `audio/mpeg` or `audio/mp3`, or its extension lowercases to
`.mp3`. -/
def uploadAccepted (originalname mimetype : String) : Bool :=
  mimetype = "audio/mpeg" || mimetype = "audio/mp3" ||
    lowerStr (extname originalname) = ".mp3"

/-- Embeds `pdfUtils.js` lines 295–297: name sanitization
`candidate_name.replace(/[^a-zA-Z0-9]/g, '_')` — every character outside
`[A-Za-z0-9]` is replaced by `_`. -/
def sanitizeName (s : String) : String :=
  String.mk (s.data.map fun c => if c.isAlphanum then c else '_')

/-- Per `pdfUtils.js` lines 295–297: the filename stem is the sanitized candidate
name when `candidate_name` is truthy (present and non-empty), and the
literal `candidate` otherwise. -/
def profileStem (candidateName : Option String) : String :=
  match candidateName with
  | some n => if n = "" then "candidate" else sanitizeName n
  | none => "candidate"

/-- Embeds `pdfUtils.js` line 299: `` `${candidateName}_profile_${timestamp}.html` ``. -/
def htmlFilename (candidateName : Option String) (ts : String) : String :=
  profileStem candidateName ++ "_profile_" ++ ts ++ ".html"

/-- Embeds `pdfUtils.js` line 300: `` `${candidateName}_profile_${timestamp}.pdf` ``. -/
def pdfFilename (candidateName : Option String) (ts : String) : String :=
  profileStem candidateName ++ "_profile_" ++ ts ++ ".pdf"

/-- The filename generated for an artifact of a given kind under the key
scheme (`storageUtils.js` lines 70–72, 95–97, 130–132, 155–157;
`pdfUtils.js` lines 294–300): fixed names for transcript/profile/metadata,
`audio_<sessionId><ext>` for audio, `<stem>_profile_<ts>.<ext>` for
html/pdf. -/
def artifactFilename (kind : ArtifactKind) (sessionId ext : String)
    (candidateName : Option String) (ts : String) : String :=
  match kind with
  | .audio => audioFilename sessionId ext
  | .transcript => "transcript.txt"
  | .profile => "candidate_profile.json"
  | .metadata => "metadata.json"
  | .html => htmlFilename candidateName ts
  | .pdf => pdfFilename candidateName ts

/-- The metadata JSON document, restricted to the keys the program reads or
writes. ISO date strings are modelled by their parsed millisecond value.
`none` models an absent (or falsy) key: `metadata.processed_at || null`
and `metadata.original_filename || null` read the snake_case keys. -/
structure MetadataDoc where
  processedAt : Option Int
  processed_at : Option Int
  originalFilename : Option String
  original_filename : Option String
  deriving DecidableEq, Repr

/-- The empty object `{}` a session keeps when its metadata document is
missing or unreadable: every key access yields `undefined`. -/
def emptyMetadata : MetadataDoc :=
  { processedAt := none, processed_at := none,
    originalFilename := none, original_filename := none }

/-- The candidate-profile JSON document, restricted to the fields the
listers project (`profile.candidate_name`, `profile.contact?.location`,
`profile.total_experience_years`, `profile.summary`). -/
structure ProfileDoc where
  candidate_name : Option String
  contactLocation : Option String
  total_experience_years : Option Int
  summary : Option String
  deriving DecidableEq, Repr

/-- The profile summary projected into a session record
(`storageUtils.js` lines 373–378 and 585–590). -/
structure ProfileSummary where
  name : Option String
  location : Option String
  experience : Option Int
  summary : Option String
  deriving DecidableEq, Repr

/-- The empty object `{}` a session keeps when its profile document is
missing or unreadable. -/
def emptyProfileSummary : ProfileSummary :=
  { name := none, location := none, experience := none, summary := none }

/-- Projection of a parsed profile document to the stored summary
(`storageUtils.js` lines 373–378 / 585–590). -/
def summaryOfProfile (p : ProfileDoc) : ProfileSummary :=
  { name := p.candidate_name, location := p.contactLocation,
    experience := p.total_experience_years, summary := p.summary }

/-- The per-kind file slots built by the classification loop
(`filePaths` / `s3Keys` objects, `storageUtils.js` lines 312–319, 524–531). -/
structure FileSlots where
  audio : Option String
  transcript : Option String
  profile : Option String
  metadata : Option String
  html : Option String
  pdf : Option String
  deriving DecidableEq, Repr

/-- All slots `null`, the initial value of the classification loop. -/
def emptySlots : FileSlots :=
  { audio := none, transcript := none, profile := none,
    metadata := none, html := none, pdf := none }

/-- One iteration of the classification loop (`storageUtils.js`
lines 331–354 / 543–566): the matched slot is assigned the filename,
unrecognized names leave the slots unchanged. -/
def assignSlot (s : FileSlots) (file : String) : FileSlots :=
  match classifyFile file with
  | some .audio => { s with audio := some file }
  | some .transcript => { s with transcript := some file }
  | some .profile => { s with profile := some file }
  | some .metadata => { s with metadata := some file }
  | some .html => { s with html := some file }
  | some .pdf => { s with pdf := some file }
  | none => s

/-- The classification loop over a raw file listing. -/
def classifySlots (files : List String) : FileSlots :=
  files.foldl assignSlot emptySlots

/-- The materialized session record (`storageUtils.js` lines 384–395 and
596–607), restricted to the fields the claims are about. -/
structure SessionRecord where
  sessionId : String
  candidateId : String
  storageType : String
  files : FileSlots
  metadata : MetadataDoc
  candidateProfile : ProfileSummary
  createdAt : Option Int
  originalFilename : Option String
  deriving DecidableEq, Repr

/-- The session comparator of `storageUtils.js` lines 399–402 and 495–498:
`0` ("no preference") when either side lacks `createdAt`, otherwise
`new Date(b.createdAt) - new Date(a.createdAt)` (descending). -/
def sessionCmp (a b : SessionRecord) : Int :=
  match a.createdAt, b.createdAt with
  | none, _ => 0
  | some _, none => 0
  | some ta, some tb => tb - ta

/-- The stable sort `sessionDetails.sort(comparator)` / `sessions.sort(...)`,
modelled as stable insertion sort placing `a` before `b` exactly when the
comparator returns `≤ 0` on `(a, b)`. -/
def sortSessions (l : List SessionRecord) : List SessionRecord :=
  List.insertionSort (fun a b => sessionCmp a b ≤ 0) l

/-- One entry of a filesystem candidate-directory listing, together with the
outcomes of the per-session reads the lister performs on it: the dirent kind,
the raw file listing of the session directory, and the results of reading and
parsing `metadata.json` / `candidate_profile.json` (`.error` models a read or
`JSON.parse` failure). -/
structure FsSessionDir where
  name : String
  isDir : Bool
  files : List String
  metaDoc : Except String MetadataDoc
  profileDoc : Except String ProfileDoc
  deriving Repr

/-- Materialization of one filesystem session
(`storageUtils.js` lines 304–395): classify the file listing, read
`metadata.json` when its slot is populated (falling back to `{}` on failure),
read the profile likewise, and derive `createdAt` / `originalFilename` from
the snake_case metadata keys. -/
def materializeFsSession (candidateId : String) (d : FsSessionDir) :
    SessionRecord :=
  let slots := classifySlots d.files
  let metadata : MetadataDoc :=
    if slots.metadata.isSome then
      match d.metaDoc with
      | .ok m => m
      | .error _ => emptyMetadata
    else emptyMetadata
  let profSummary : ProfileSummary :=
    if slots.profile.isSome then
      match d.profileDoc with
      | .ok p => summaryOfProfile p
      | .error _ => emptyProfileSummary
    else emptyProfileSummary
  { sessionId := d.name
    candidateId := candidateId
    storageType := "filesystem"
    files := slots
    metadata := metadata
    candidateProfile := profSummary
    createdAt := metadata.processed_at
    originalFilename := metadata.original_filename }

/-- A thrown I/O error, identified by its `code` property. -/
structure IOErr where
  code : String
  deriving DecidableEq, Repr

/-- The lister `_listFilesystemSessions` (`storageUtils.js` lines 297–410): on a failed
directory listing, `ENOENT` collapses to `[]` and any other error is
re-thrown; otherwise the non-directory entries are dropped, each session
directory is materialized, and the result is sorted by the `createdAt`
comparator. -/
def listFsSessions (candidateId : String)
    (dirListing : Except IOErr (List FsSessionDir)) :
    Except IOErr (List SessionRecord) :=
  match dirListing with
  | .error e => if e.code = "ENOENT" then .ok [] else .error e
  | .ok entries =>
      .ok (sortSessions
        ((entries.filter (fun d => d.isDir)).map (materializeFsSession candidateId)))

/-- The roster row for one candidate (`storageUtils.js` lines 259–276 and
436–453, textually identical): counts the sessions and projects
name/location/experience and `lastActivity` from the first element of the
(pre-sorted) session list, leaving them `null` when there are no sessions. -/
structure CandidateRecord where
  candidateId : String
  sessionCount : Nat
  lastActivity : Option Int
  name : Option String
  location : Option String
  experience : Option Int
  deriving DecidableEq, Repr

/-- Construction of one roster row from a candidate's materialized session
list (`storageUtils.js` lines 259–276 / 436–453). -/
def rosterRow (candidateId : String) (sessions : List SessionRecord) :
    CandidateRecord :=
  match sessions with
  | [] =>
      { candidateId := candidateId, sessionCount := 0, lastActivity := none,
        name := none, location := none, experience := none }
  | s :: rest =>
      { candidateId := candidateId
        sessionCount := (s :: rest).length
        lastActivity := s.createdAt
        name := s.candidateProfile.name
        location := s.candidateProfile.location
        experience := s.candidateProfile.experience }

/-- The roster comparator (`storageUtils.js` lines 280–283 and 457–460):
`0` when either side lacks `lastActivity`, otherwise descending. -/
def candidateCmp (a b : CandidateRecord) : Int :=
  match a.lastActivity, b.lastActivity with
  | none, _ => 0
  | some _, none => 0
  | some ta, some tb => tb - ta

/-- The stable sort of the roster by `lastActivity` descending. -/
def sortCandidates (l : List CandidateRecord) : List CandidateRecord :=
  List.insertionSort (fun a b => candidateCmp a b ≤ 0) l

/-- One entry of the filesystem root listing, carrying the outcome of the
nested session listing the candidate lister performs for it. -/
structure FsCandidateDir where
  name : String
  isDir : Bool
  sessionListing : Except IOErr (List FsSessionDir)
  deriving Repr

/-- The lister `_listFilesystemCandidates` (`storageUtils.js` lines 245–291): list the
root, build a roster row per candidate directory from its session list, sort
by `lastActivity`; the surrounding `try/catch` turns `ENOENT` into `[]` and
re-throws anything else. -/
def listFsCandidates (root : Except IOErr (List FsCandidateDir)) :
    Except IOErr (List CandidateRecord) :=
  let body : Except IOErr (List CandidateRecord) := do
    let dirents ← root
    let rows ← (dirents.filter (fun d => d.isDir)).mapM fun d => do
      let sessions ← listFsSessions d.name d.sessionListing
      pure (rosterRow d.name sessions)
    pure (sortCandidates rows)
  match body with
  | .error e => if e.code = "ENOENT" then .ok [] else .error e
  | .ok v => .ok v

/-- An object-store (S3) request failure. -/
structure S3Err where
  message : String
  deriving DecidableEq, Repr

/-- Embeds `obj.Key.split('/').pop()` — the basename of an object key. -/
def keyBasename (k : String) : String :=
  (k.splitOn "/").getLastD ""

/-- The data `_getS3SessionData` works from for one session: the keys
returned by the per-session object listing (or the failure of that call),
and the outcomes of fetching and parsing the metadata / profile objects. -/
structure S3SessionData where
  name : String
  listFault : Option S3Err
  objectKeys : List String
  metaDoc : Except String MetadataDoc
  profileDoc : Except String ProfileDoc
  deriving Repr

/-- The materializer `_getS3SessionData` (`storageUtils.js` lines 510–613): classify the
basename of every listed object key, read metadata/profile when present
(falling back to `{}` on a per-document failure), and derive
`createdAt` / `originalFilename` from the snake_case metadata keys; any
uncaught fault (the session's list call) makes the whole session `null`. -/
def getS3SessionData (candidateId : String) (s : S3SessionData) :
    Option SessionRecord :=
  match s.listFault with
  | some _ => none
  | none =>
    let slots := classifySlots (s.objectKeys.map keyBasename)
    let metadata : MetadataDoc :=
      if slots.metadata.isSome then
        match s.metaDoc with
        | .ok m => m
        | .error _ => emptyMetadata
      else emptyMetadata
    let profSummary : ProfileSummary :=
      if slots.profile.isSome then
        match s.profileDoc with
        | .ok p => summaryOfProfile p
        | .error _ => emptyProfileSummary
      else emptyProfileSummary
    some
      { sessionId := s.name
        candidateId := candidateId
        storageType := "s3"
        files := slots
        metadata := metadata
        candidateProfile := profSummary
        createdAt := metadata.processed_at
        originalFilename := metadata.original_filename }

/-- The lister `_listS3Sessions` (`storageUtils.js` lines 472–504): any failure of the
listing call is caught and converted to `[]`; otherwise the non-`null`
session records are collected and sorted by the `createdAt` comparator. -/
def listS3Sessions (candidateId : String)
    (resp : Except S3Err (List S3SessionData)) : List SessionRecord :=
  match resp with
  | .error _ => []
  | .ok items => sortSessions (items.filterMap (getS3SessionData candidateId))

/-- One common-prefix entry of the top-level S3 listing, carrying the
response of the nested per-candidate session listing. -/
structure S3CandidateEntry where
  name : String
  sessions : Except S3Err (List S3SessionData)
  deriving Repr

/-- The lister `_listS3Candidates` (`storageUtils.js` lines 416–466): any failure of the
top-level listing call is caught and converted to `[]`; otherwise one roster
row per common prefix, sorted by `lastActivity`. -/
def listS3Candidates (resp : Except S3Err (List S3CandidateEntry)) :
    List CandidateRecord :=
  match resp with
  | .error _ => []
  | .ok entries =>
      sortCandidates
        (entries.map fun e => rosterRow e.name (listS3Sessions e.name e.sessions))

/-- A wall-clock reading in the configured time zone, at second resolution
(the resolution of the `YYYYMMDD-HHmmss` format). -/
structure LocalTime where
  year : Nat
  month : Nat
  day : Nat
  hour : Nat
  minute : Nat
  second : Nat
  deriving DecidableEq, Repr

/-- Two-digit zero padding of a `moment` format field. -/
def pad2 (n : Nat) : String :=
  if n < 10 then "0" ++ toString n else toString n

/-- Embeds `generateTimestamp` (`storageUtils.js` lines 32–34):
`moment().tz(config.timezone).format('YYYYMMDD-HHmmss')`, as a function of
the wall clock in the configured zone. -/
def generateTimestamp (t : LocalTime) : String :=
  toString t.year ++ pad2 t.month ++ pad2 t.day ++ "-" ++
    pad2 t.hour ++ pad2 t.minute ++ pad2 t.second

/-- Embeds `saveCandidateData` line 48: `` `${timestamp}-IST` ``. -/
def sessionIdOf (t : LocalTime) : String :=
  generateTimestamp t ++ "-IST"

/-- Embeds `path.join(a, b)` on plain segments. -/
def joinP (a b : String) : String :=
  a ++ "/" ++ b

/-- An uploaded audio file handed to the store: the client-supplied original
name and the bytes sitting at the temp path. -/
structure AudioFile where
  originalname : String
  content : String
  deriving DecidableEq, Repr

/-- A generated html or pdf artifact handed to the store (buffer variant used
by the S3 path): its filename and its bytes. -/
structure GeneratedFile where
  filename : String
  buffer : String
  deriving DecidableEq, Repr

/-- The inputs of one `saveCandidateData` call. The transcript, serialized
profile and serialized metadata are opaque byte strings
(`JSON.stringify(profile, null, 2)` is injective on documents, so the
serialized form is kept opaque). -/
structure SaveInput where
  candidateId : String
  transcript : String
  profileJson : String
  metadataJson : String
  audio : Option AudioFile
  generatedHtml : Option GeneratedFile
  generatedPdf : Option GeneratedFile
  deriving DecidableEq, Repr

/-- A flat key → content store modelling both the filesystem tree and the S3
bucket: a write prepends, a read takes the most recent write. -/
def Store : Type := List (String × String)

/-- One completed write / put: the new content shadows any older content at
the same key. -/
def putStore (st : Store) (k v : String) : Store :=
  (k, v) :: st

/-- What a subsequent read observes at a key. -/
def lookupStore (st : Store) (k : String) : Option String :=
  ((st : List (String × String)).find? (fun p => p.1 == k)).map (fun p => p.2)

/-- Dispatch all writes of one save operation. Every write is issued
(the promises all run regardless of sibling failures); `fails` says which
individual writes reject. Returns the post state and whether any write
rejected — `Promise.all` settles the operation as failed exactly then. -/
def runWrites (fails : String → Bool) (st : Store) :
    List (String × String) → Store × Bool
  | [] => (st, false)
  | w :: ws =>
    let rest :=
      runWrites fails (if fails w.1 then st else putStore st w.1 w.2) ws
    (rest.1, fails w.1 || rest.2)

/-- The write-time return value, restricted to the fields the claims use. -/
structure SaveResult where
  storageType : String
  candidateId : String
  sessionId : String
  deriving DecidableEq, Repr

/-- The planned writes of `_saveToFilesystem` (`storageUtils.js` lines
63–120): the three required documents under fixed names, plus the copied
audio file under `audio_<sessionId><ext>` when an upload is present (html/pdf
are not written by this function on the filesystem path). -/
def fsWrites (dataPath : String) (sessionId : String) (inp : SaveInput) :
    List (String × String) :=
  let folder := joinP (joinP dataPath inp.candidateId) sessionId
  [(joinP folder "transcript.txt", inp.transcript),
   (joinP folder "candidate_profile.json", inp.profileJson),
   (joinP folder "metadata.json", inp.metadataJson)] ++
    (match inp.audio with
     | some a =>
        [(joinP folder (audioFilename sessionId (audioExtension a.originalname)),
          a.content)]
     | none => [])

/-- The writer `_saveToFilesystem`: run every write; the operation resolves with the
result object only when none rejected, and rejects otherwise, leaving the
already-flushed files in place either way. -/
def saveToFilesystem (dataPath : String) (sessionId : String)
    (inp : SaveInput) (fails : String → Bool) (st : Store) :
    Except String SaveResult × Store :=
  let out := runWrites fails st (fsWrites dataPath sessionId inp)
  (if out.2 then .error "write failed"
   else .ok { storageType := "filesystem", candidateId := inp.candidateId,
              sessionId := sessionId },
   out.1)

/-- The planned puts of `_saveToS3` (`storageUtils.js` lines 126–184): the
three required documents, the audio object when an upload is present, and the
html/pdf buffers under their generated filenames when present. -/
def s3Writes (dataPrefixCfg : String) (sessionId : String) (inp : SaveInput) :
    List (String × String) :=
  let baseKey := joinP (joinP dataPrefixCfg inp.candidateId) sessionId
  [(joinP baseKey "transcript.txt", inp.transcript),
   (joinP baseKey "candidate_profile.json", inp.profileJson),
   (joinP baseKey "metadata.json", inp.metadataJson)] ++
    (match inp.audio with
     | some a =>
        [(joinP baseKey (audioFilename sessionId (audioExtension a.originalname)),
          a.content)]
     | none => []) ++
    (match inp.generatedHtml with
     | some g => [(joinP baseKey g.filename, g.buffer)]
     | none => []) ++
    (match inp.generatedPdf with
     | some g => [(joinP baseKey g.filename, g.buffer)]
     | none => [])

/-- The writer `_saveToS3`: run every put; the operation resolves only when none
rejected, and already-completed puts are not retracted. -/
def saveToS3 (dataPrefixCfg : String) (sessionId : String)
    (inp : SaveInput) (fails : String → Bool) (st : Store) :
    Except String SaveResult × Store :=
  let out := runWrites fails st (s3Writes dataPrefixCfg sessionId inp)
  (if out.2 then .error "write failed"
   else .ok { storageType := "s3", candidateId := inp.candidateId,
              sessionId := sessionId },
   out.1)

/-- The facade `saveCandidateData` (`storageUtils.js` lines 46–57): generate the
session id from the current wall clock and dispatch on the configured
storage type; an unknown type throws. -/
def saveCandidateData (storageType : String) (rootCfg : String)
    (now : LocalTime) (inp : SaveInput) (fails : String → Bool) (st : Store) :
    Except String SaveResult × Store :=
  let sessionId := sessionIdOf now
  if storageType = "filesystem" then
    saveToFilesystem rootCfg sessionId inp fails st
  else if storageType = "s3" then
    saveToS3 rootCfg sessionId inp fails st
  else (.error ("Unsupported storage type: " ++ storageType), st)

/-- The metadata document built by `processAudio`
(`audioController.js` lines 49–60): the object literal uses the camelCase
keys `processedAt` and `originalFilename`; no snake_case key is written
(keys the listers never read — `candidateId`, `fileSize`, lengths, flags —
are omitted from the model). -/
def processAudioMetadata (originalname : String) (nowMs : Int) : MetadataDoc :=
  { processedAt := some nowMs
    processed_at := none
    originalFilename := some originalname
    original_filename := none }

/-- Descending comparison of two optional timestamps, with `true`
("no constraint") whenever either side is absent — the order the session
comparator actually enforces. -/
def optDescB (a b : Option Int) : Bool :=
  match a, b with
  | some ta, some tb => decide (tb ≤ ta)
  | _, _ => true

/-- A session list is sorted by `createdAt` descending: any entry appearing
before another with both timestamps present has the larger (or equal)
timestamp. -/
def SortedByCreatedAtDesc (l : List SessionRecord) : Prop :=
  l.Pairwise (fun a b => optDescB a.createdAt b.createdAt = true)

/-- Failure injection for a run in which every write succeeds. -/
def noFail : String → Bool := fun _ => false

/-- Three session directories as a filesystem listing would hand them to the
session lister, in `readdir` order: timestamps `5`, absent, `7`, with
distinct profile names. -/
def exampleSessionDirs : List FsSessionDir :=
  [{ name := "s1", isDir := true,
     files := ["transcript.txt", "candidate_profile.json", "metadata.json"],
     metaDoc := .ok { emptyMetadata with processed_at := some 5 },
     profileDoc := .ok { candidate_name := some "Alice", contactLocation := none,
                         total_experience_years := none, summary := none } },
   { name := "s2", isDir := true,
     files := ["transcript.txt", "candidate_profile.json", "metadata.json"],
     metaDoc := .ok emptyMetadata,
     profileDoc := .ok { candidate_name := some "Bob", contactLocation := none,
                         total_experience_years := none, summary := none } },
   { name := "s3", isDir := true,
     files := ["transcript.txt", "candidate_profile.json", "metadata.json"],
     metaDoc := .ok { emptyMetadata with processed_at := some 7 },
     profileDoc := .ok { candidate_name := some "Carol", contactLocation := none,
                         total_experience_years := none, summary := none } }]

theorem charsIsPre_append_self (p rest : List Char) :
    charsIsPre p (p ++ rest) = true := by
  induction p with
  | nil => rfl
  | cons a as ih => simp [charsIsPre, ih]

theorem strStartsWith_append (p x : String) :
    strStartsWith (p ++ x) p = true := by
  unfold strStartsWith
  rw [String.data_append]
  exact charsIsPre_append_self p.data x.data

theorem strEndsWith_append (x p : String) :
    strEndsWith (x ++ p) p = true := by
  unfold strEndsWith
  rw [String.data_append, List.reverse_append]
  exact charsIsPre_append_self p.data.reverse x.data.reverse

theorem append_ne_of_not_endsWith (x p q : String)
    (h : strEndsWith q p = false) : x ++ p ≠ q := by
  intro e
  have h2 := strEndsWith_append x p
  rw [e, h] at h2
  cases h2

theorem endsWith_html_not_mp3 (x : String) :
    strEndsWith (x ++ ".html") ".mp3" = false := by
  unfold strEndsWith
  rw [String.data_append, List.reverse_append]
  have h1 : (".mp3" : String).data.reverse = ['3', 'p', 'm', '.'] := by decide
  have h2 : (".html" : String).data.reverse = ['l', 'm', 't', 'h', '.'] := by
    decide
  rw [h1, h2]
  simp [charsIsPre]

theorem endsWith_pdf_not_mp3 (x : String) :
    strEndsWith (x ++ ".pdf") ".mp3" = false := by
  unfold strEndsWith
  rw [String.data_append, List.reverse_append]
  have h1 : (".mp3" : String).data.reverse = ['3', 'p', 'm', '.'] := by decide
  have h2 : (".pdf" : String).data.reverse = ['f', 'd', 'p', '.'] := by decide
  rw [h1, h2]
  simp [charsIsPre]

theorem endsWith_pdf_not_html (x : String) :
    strEndsWith (x ++ ".pdf") ".html" = false := by
  unfold strEndsWith
  rw [String.data_append, List.reverse_append]
  have h1 : (".html" : String).data.reverse = ['l', 'm', 't', 'h', '.'] := by
    decide
  have h2 : (".pdf" : String).data.reverse = ['f', 'd', 'p', '.'] := by decide
  rw [h1, h2]
  simp [charsIsPre]

theorem classify_audio_mp3 (sid : String) :
    classifyFile (audioFilename sid ".mp3") = some ArtifactKind.audio := by
  unfold audioFilename classifyFile
  have h1 : strStartsWith ("audio_" ++ sid ++ ".mp3") "audio_" = true :=
    strStartsWith_append "audio_" (sid ++ ".mp3")
  have h2 : strEndsWith ("audio_" ++ sid ++ ".mp3") ".mp3" = true := by
    have := strEndsWith_append ("audio_" ++ sid) ".mp3"
    rwa [String.append_assoc] at this
  rw [h1, h2]
  rfl

theorem classify_html_name (c : Option String) (ts : String) :
    classifyFile (htmlFilename c ts) = some ArtifactKind.html := by
  unfold htmlFilename classifyFile
  have h1 := endsWith_html_not_mp3 (profileStem c ++ "_profile_" ++ ts)
  have h2 := strEndsWith_append (profileStem c ++ "_profile_" ++ ts) ".html"
  have n1 : (profileStem c ++ "_profile_" ++ ts) ++ ".html" ≠
      "transcript.txt" :=
    append_ne_of_not_endsWith _ _ _ (by decide)
  have n2 : (profileStem c ++ "_profile_" ++ ts) ++ ".html" ≠
      "candidate_profile.json" :=
    append_ne_of_not_endsWith _ _ _ (by decide)
  have n3 : (profileStem c ++ "_profile_" ++ ts) ++ ".html" ≠
      "metadata.json" :=
    append_ne_of_not_endsWith _ _ _ (by decide)
  rw [h1, h2]
  simp [n1, n2, n3]

theorem classify_pdf_name (c : Option String) (ts : String) :
    classifyFile (pdfFilename c ts) = some ArtifactKind.pdf := by
  unfold pdfFilename classifyFile
  have h1 := endsWith_pdf_not_mp3 (profileStem c ++ "_profile_" ++ ts)
  have h2 := endsWith_pdf_not_html (profileStem c ++ "_profile_" ++ ts)
  have h3 := strEndsWith_append (profileStem c ++ "_profile_" ++ ts) ".pdf"
  have n1 : (profileStem c ++ "_profile_" ++ ts) ++ ".pdf" ≠
      "transcript.txt" :=
    append_ne_of_not_endsWith _ _ _ (by decide)
  have n2 : (profileStem c ++ "_profile_" ++ ts) ++ ".pdf" ≠
      "candidate_profile.json" :=
    append_ne_of_not_endsWith _ _ _ (by decide)
  have n3 : (profileStem c ++ "_profile_" ++ ts) ++ ".pdf" ≠
      "metadata.json" :=
    append_ne_of_not_endsWith _ _ _ (by decide)
  rw [h1, h2, h3]
  simp [n1, n2, n3]

/-- C1 (counterexample): the round trip fails for the audio artifact when the
uploaded file's extension is not the lowercase `.mp3` — here `.MP3`, which
the upload filter accepts (its extension check lowercases, the classifier's
`.mp3` suffix test does not). The generated filename
`audio_20240101-000000-IST.MP3` is classified as no artifact at all, not as
Audio. -/
theorem c1_roundtrip_counterexample :
    uploadAccepted "interview.MP3" "audio/mpeg" = true ∧
    audioExtension "interview.MP3" = ".MP3" ∧
    artifactFilename ArtifactKind.audio "20240101-000000-IST" ".MP3" none "t"
      = "audio_20240101-000000-IST.MP3" ∧
    classifyFile
      (artifactFilename ArtifactKind.audio "20240101-000000-IST" ".MP3" none "t")
      = none := by
  refine ⟨by decide, by decide, by decide, by decide⟩

/-- C1 (amended): for every sessionId, candidate name and timestamp, the key
scheme followed by classification recovers the ArtifactKind for the
transcript, profile, metadata, html and pdf artifacts, and for the audio
artifact whenever its extension is the literal `.mp3` (in particular under
the `.mp3` default used when the uploaded name has no extension); audio
filenames generated from any other uploaded extension are not recovered. -/
theorem c1_roundtrip_amended (sid ts : String) (cname : Option String) :
    classifyFile (artifactFilename ArtifactKind.audio sid ".mp3" cname ts)
      = some ArtifactKind.audio ∧
    classifyFile
        (artifactFilename ArtifactKind.audio sid (audioExtension "interview")
          cname ts)
      = some ArtifactKind.audio ∧
    classifyFile (artifactFilename ArtifactKind.transcript sid ".mp3" cname ts)
      = some ArtifactKind.transcript ∧
    classifyFile (artifactFilename ArtifactKind.profile sid ".mp3" cname ts)
      = some ArtifactKind.profile ∧
    classifyFile (artifactFilename ArtifactKind.metadata sid ".mp3" cname ts)
      = some ArtifactKind.metadata ∧
    classifyFile (artifactFilename ArtifactKind.html sid ".mp3" cname ts)
      = some ArtifactKind.html ∧
    classifyFile (artifactFilename ArtifactKind.pdf sid ".mp3" cname ts)
      = some ArtifactKind.pdf := by
  refine ⟨classify_audio_mp3 sid, ?_, by rfl, by rfl, by rfl,
    classify_html_name cname ts, classify_pdf_name cname ts⟩
  have h : audioExtension "interview" = ".mp3" := by decide
  rw [show artifactFilename ArtifactKind.audio sid
        (audioExtension "interview") cname ts
      = audioFilename sid (audioExtension "interview") from rfl, h]
  exact classify_audio_mp3 sid

theorem sessionCmp_le_iff {x y : SessionRecord} {tx ty : Int}
    (hx : x.createdAt = some tx) (hy : y.createdAt = some ty) :
    (sessionCmp x y ≤ 0) ↔ ty ≤ tx := by
  simp [sessionCmp, hx, hy]

theorem optDescB_of_le {x y : SessionRecord} {tx ty : Int}
    (hx : x.createdAt = some tx) (hy : y.createdAt = some ty) (h : ty ≤ tx) :
    optDescB x.createdAt y.createdAt = true := by
  simp [optDescB, hx, hy, h]

theorem pairwise_orderedInsert_of_some
    (a : SessionRecord) (l : List SessionRecord)
    (ha : a.createdAt.isSome = true) (hl : ∀ x ∈ l, x.createdAt.isSome = true)
    (h : List.Pairwise (fun x y => optDescB x.createdAt y.createdAt = true) l) :
    List.Pairwise (fun x y => optDescB x.createdAt y.createdAt = true)
      (List.orderedInsert (fun a b => sessionCmp a b ≤ 0) a l) := by
  induction l with
  | nil => simp [List.orderedInsert]
  | cons b t ih =>
    obtain ⟨ta, hta⟩ := Option.isSome_iff_exists.mp ha
    obtain ⟨tb, htb⟩ := Option.isSome_iff_exists.mp (hl b (by simp))
    by_cases hr : sessionCmp a b ≤ 0
    · rw [List.orderedInsert, if_pos hr]
      have hba : tb ≤ ta := (sessionCmp_le_iff hta htb).mp hr
      refine List.Pairwise.cons ?_ h
      intro y hy
      rcases List.mem_cons.mp hy with rfl | hyt
      · exact optDescB_of_le hta htb hba
      · obtain ⟨tyv, hty⟩ :=
          Option.isSome_iff_exists.mp (hl y (by simp [hyt]))
        have hpb : optDescB b.createdAt y.createdAt = true :=
          List.rel_of_pairwise_cons h hyt
        have : tyv ≤ tb := by
          simpa [optDescB, htb, hty] using hpb
        exact optDescB_of_le hta hty (le_trans this hba)
    · rw [List.orderedInsert, if_neg hr]
      have hab : ta ≤ tb := by
        have := (sessionCmp_le_iff hta htb).not.mp hr
        omega
      refine List.Pairwise.cons ?_
        (ih (fun x hx => hl x (by simp [hx])) h.of_cons)
      intro y hy
      rcases (List.mem_orderedInsert _).mp hy with rfl | hyt
      · exact optDescB_of_le htb hta hab
      · exact List.rel_of_pairwise_cons h hyt

theorem sorted_sortSessions_of_all_some (l : List SessionRecord)
    (hl : ∀ x ∈ l, x.createdAt.isSome = true) :
    SortedByCreatedAtDesc (sortSessions l) := by
  unfold SortedByCreatedAtDesc sortSessions
  induction l with
  | nil => simp
  | cons a t ih =>
    rw [List.insertionSort]
    refine pairwise_orderedInsert_of_some a _ (hl a (by simp)) ?_
      (ih (fun x hx => hl x (by simp [hx])))
    intro x hx
    exact hl x (by simp [(List.mem_insertionSort _).mp hx])

theorem perm_sortSessions (l : List SessionRecord) :
    List.Perm (sortSessions l) l :=
  List.perm_insertionSort _ l

/-- C2 (counterexample): on the filesystem backend, with sessions read in
directory order `createdAt = 5`, `null`, `7`, the listing returns them
unchanged — the comparator answers "no preference" on every pair involving
the null entry, so the stable sort never compares 5 with 7 and the output is
not sorted by `createdAt` descending. -/
theorem c2_sorted_counterexample :
    ((listFsSessions "cand" (Except.ok exampleSessionDirs)).toOption.getD
        []).map (fun s => s.createdAt) = [some 5, none, some 7] ∧
    ¬ SortedByCreatedAtDesc
        ((listFsSessions "cand" (Except.ok exampleSessionDirs)).toOption.getD
          []) := by
  constructor
  · decide
  · unfold SortedByCreatedAtDesc
    decide

/-- C2 (amended): the session listing is a permutation of the materialized
sessions; the comparator returns 0 ("no preference") whenever either side
lacks `createdAt`; and when every listed session carries a `createdAt`, the
output of either backend's lister is sorted by `createdAt` descending.
(With a null interleaved the output need not be globally sorted, as the
counterexample shows.) -/
theorem c2_sorting_amended :
    (∀ l : List SessionRecord, List.Perm (sortSessions l) l) ∧
    (∀ a b : SessionRecord, a.createdAt = none ∨ b.createdAt = none →
      sessionCmp a b = 0) ∧
    (∀ cid dirs out, listFsSessions cid (Except.ok dirs) = Except.ok out →
      (∀ d ∈ dirs, d.isDir = true →
        ((materializeFsSession cid d).createdAt).isSome = true) →
      SortedByCreatedAtDesc out) ∧
    (∀ cid items,
      (∀ r ∈ items.filterMap (getS3SessionData cid),
        r.createdAt.isSome = true) →
      SortedByCreatedAtDesc (listS3Sessions cid (Except.ok items))) := by
  refine ⟨perm_sortSessions, ?_, ?_, ?_⟩
  · intro a b h
    rcases h with h | h
    · simp [sessionCmp, h]
    · cases ha : a.createdAt
      all_goals simp [sessionCmp, h, ha]
  · intro cid dirs out hout hsome
    have : out =
        sortSessions
          ((dirs.filter (fun d => d.isDir)).map
            (materializeFsSession cid)) := by
      simpa [listFsSessions] using hout.symm
    subst this
    refine sorted_sortSessions_of_all_some _ ?_
    intro x hx
    obtain ⟨d, hd, rfl⟩ := List.mem_map.mp hx
    exact hsome d (List.mem_of_mem_filter hd) (List.of_mem_filter hd)
  · intro cid items hsome
    exact sorted_sortSessions_of_all_some _ hsome

/-- C2 (witness): a concrete run of the amended sortedness conjunct — two
filesystem sessions with timestamps 5 and 7, listed in ascending order, come
back sorted descending. -/
theorem c2_sorting_amended_witness :
    SortedByCreatedAtDesc
      ((listFsSessions "c"
          (Except.ok
            [{ name := "a", isDir := true, files := ["metadata.json"],
               metaDoc := Except.ok { emptyMetadata with processed_at := some 5 },
               profileDoc := Except.error "missing" },
             { name := "b", isDir := true, files := ["metadata.json"],
               metaDoc := Except.ok { emptyMetadata with processed_at := some 7 },
               profileDoc := Except.error "missing" }])).toOption.getD []) :=
  c2_sorting_amended.2.2.1 "c" _ _ (by rfl) (by decide)

/-- C3 (confirmed): `processAudio` builds its metadata document with the
camelCase keys `processedAt` / `originalFilename`, while both backends'
listers read the snake_case keys `processed_at` / `original_filename`; hence
every session written by the program's own pipeline materializes with
`createdAt = null` and `originalFilename = null`, on either backend. -/
theorem c3_camel_snake_mismatch :
    (∀ orig now, (processAudioMetadata orig now).processedAt = some now ∧
      (processAudioMetadata orig now).originalFilename = some orig ∧
      (processAudioMetadata orig now).processed_at = none ∧
      (processAudioMetadata orig now).original_filename = none) ∧
    (∀ cid orig now (d : FsSessionDir),
      d.metaDoc = Except.ok (processAudioMetadata orig now) →
      (materializeFsSession cid d).createdAt = none ∧
      (materializeFsSession cid d).originalFilename = none) ∧
    (∀ cid orig now (s : S3SessionData),
      s.metaDoc = Except.ok (processAudioMetadata orig now) →
      ∀ r, getS3SessionData cid s = some r →
      r.createdAt = none ∧ r.originalFilename = none) := by
  refine ⟨fun orig now => ⟨rfl, rfl, rfl, rfl⟩, ?_, ?_⟩
  · intro cid orig now d hd
    by_cases h : (classifySlots d.files).metadata.isSome <;>
      simp [materializeFsSession, hd, h, processAudioMetadata, emptyMetadata]
  · intro cid orig now s hs r hr
    cases hF : s.listFault with
    | some e => simp [getS3SessionData, hF] at hr
    | none =>
      by_cases h :
          (classifySlots (s.objectKeys.map keyBasename)).metadata.isSome <;>
        · rw [getS3SessionData, hF] at hr
          simp only [h, if_true, if_false, hs] at hr
          cases hr
          simp [processAudioMetadata, emptyMetadata]

/-- C3 (witness): a concrete session directory written by the pipeline —
metadata parsed as the camelCase document — materializes with null
`createdAt` and `originalFilename`. -/
theorem c3_camel_snake_mismatch_witness :
    (materializeFsSession "cand"
        { name := "20240101-000000-IST", isDir := true,
          files := ["transcript.txt", "candidate_profile.json",
                    "metadata.json"],
          metaDoc := Except.ok (processAudioMetadata "interview.mp3" 1704067200000),
          profileDoc := Except.error "unused" }).createdAt = none ∧
    (materializeFsSession "cand"
        { name := "20240101-000000-IST", isDir := true,
          files := ["transcript.txt", "candidate_profile.json",
                    "metadata.json"],
          metaDoc := Except.ok (processAudioMetadata "interview.mp3" 1704067200000),
          profileDoc := Except.error "unused" }).originalFilename = none :=
  c3_camel_snake_mismatch.2.1 "cand" "interview.mp3" 1704067200000 _ (by rfl)

/-- C4 (counterexample): with sessions materialized in directory order
`createdAt = 5` (name Alice), `null` (Bob), `7` (Carol), the sorted session
list still starts with the Alice session, so the roster row takes its
name and `lastActivity = 5` from it — not from the session with the
greatest `createdAt` (Carol, `7`). -/
theorem c4_roster_counterexample :
    listFsCandidates
        (Except.ok
          [{ name := "cand", isDir := true,
             sessionListing := Except.ok exampleSessionDirs }]) =
      Except.ok
        [{ candidateId := "cand", sessionCount := 3, lastActivity := some 5,
           name := some "Alice", location := none, experience := none }] ∧
    ((listFsSessions "cand" (Except.ok exampleSessionDirs)).toOption.getD
        []).map (fun s => (s.createdAt, s.candidateProfile.name)) =
      [(some 5, some "Alice"), (none, some "Bob"), (some 7, some "Carol")] := by
  exact ⟨by rfl, by decide⟩

/-- C4 (amended): the roster row is built from the *first element* of the
comparator-sorted session list — its profile fields and its `createdAt` as
`lastActivity` — together with the total session count; this first element
carries the greatest `createdAt` whenever every session has a non-null
`createdAt` (but not otherwise, as the counterexample shows). -/
theorem c4_roster_amended :
    (∀ cid (s : SessionRecord) rest,
      rosterRow cid (s :: rest) =
        { candidateId := cid, sessionCount := (s :: rest).length,
          lastActivity := s.createdAt, name := s.candidateProfile.name,
          location := s.candidateProfile.location,
          experience := s.candidateProfile.experience }) ∧
    (∀ cid, rosterRow cid [] =
      { candidateId := cid, sessionCount := 0, lastActivity := none,
        name := none, location := none, experience := none }) ∧
    (∀ l : List SessionRecord, (∀ x ∈ l, x.createdAt.isSome = true) →
      ∀ a rest, sortSessions l = a :: rest →
      ∀ s ∈ l, optDescB a.createdAt s.createdAt = true) := by
  refine ⟨fun cid s rest => rfl, fun cid => rfl, ?_⟩
  intro l hl a rest hsort s hs
  have hsorted : SortedByCreatedAtDesc (sortSessions l) :=
    sorted_sortSessions_of_all_some l hl
  rw [hsort] at hsorted
  have hmem : s ∈ a :: rest := by
    rw [← hsort]
    exact (perm_sortSessions l).mem_iff.mpr hs
  rcases List.mem_cons.mp hmem with rfl | hrest
  · obtain ⟨ts, hts⟩ := Option.isSome_iff_exists.mp (hl s hs)
    simp [optDescB, hts]
  · exact List.rel_of_pairwise_cons hsorted hrest

/-- C4 (witness): a concrete instance of the amended head-is-maximal
conjunct, on two sessions with timestamps 5 and 7. -/
theorem c4_roster_amended_witness :
    optDescB (some 7) (some 5) = true := by
  have h := c4_roster_amended.2.2
    [{ sessionId := "a", candidateId := "c", storageType := "filesystem",
       files := emptySlots, metadata := emptyMetadata,
       candidateProfile := emptyProfileSummary, createdAt := some 5,
       originalFilename := none },
     { sessionId := "b", candidateId := "c", storageType := "filesystem",
       files := emptySlots, metadata := emptyMetadata,
       candidateProfile := emptyProfileSummary, createdAt := some 7,
       originalFilename := none }]
    (by decide)
    { sessionId := "b", candidateId := "c", storageType := "filesystem",
      files := emptySlots, metadata := emptyMetadata,
      candidateProfile := emptyProfileSummary, createdAt := some 7,
      originalFilename := none }
    [{ sessionId := "a", candidateId := "c", storageType := "filesystem",
       files := emptySlots, metadata := emptyMetadata,
       candidateProfile := emptyProfileSummary, createdAt := some 5,
       originalFilename := none }]
    (by decide)
    { sessionId := "a", candidateId := "c", storageType := "filesystem",
      files := emptySlots, metadata := emptyMetadata,
      candidateProfile := emptyProfileSummary, createdAt := some 5,
      originalFilename := none }
    (by decide)
  exact h

/-- C5 (confirmed): on the object-store backend every listing failure
collapses to an empty result (never propagates), while a session whose own
reads may fail is still produced; on the filesystem backend a listing error
other than `ENOENT` propagates to the caller, from both the session lister
and the candidate lister. -/
theorem c5_failure_policy :
    (∀ e : S3Err, listS3Candidates (Except.error e) = []) ∧
    (∀ (e : S3Err) cid, listS3Sessions cid (Except.error e) = []) ∧
    (∀ cid (s : S3SessionData), s.listFault = none →
      (getS3SessionData cid s).isSome = true) ∧
    (∀ cid (e : IOErr), e.code ≠ "ENOENT" →
      listFsSessions cid (Except.error e) = Except.error e) ∧
    (∀ e : IOErr, e.code ≠ "ENOENT" →
      listFsCandidates (Except.error e) = Except.error e) := by
  refine ⟨fun e => rfl, fun e cid => rfl, ?_, ?_, ?_⟩
  · intro cid s h
    simp [getS3SessionData, h]
  · intro cid e h
    simp [listFsSessions, h]
  · intro e h
    show (match (Except.error e : Except IOErr (List CandidateRecord)) with
      | Except.error e => if e.code = "ENOENT" then Except.ok [] else Except.error e
      | Except.ok v => Except.ok v) = Except.error e
    simp [h]

/-- C5 (witness): concrete faults — an `EACCES` filesystem error propagates
from both filesystem listers, while the same kind of fault on the
object-store listers yields empty results and a session with no list fault
is still materialized. -/
theorem c5_failure_policy_witness :
    listS3Candidates (Except.error { message := "network" }) = [] ∧
    listS3Sessions "cand" (Except.error { message := "network" }) = [] ∧
    (getS3SessionData "cand"
        { name := "s", listFault := none, objectKeys := [],
          metaDoc := Except.error "no metadata",
          profileDoc := Except.error "no profile" }).isSome = true ∧
    listFsSessions "cand" (Except.error { code := "EACCES" }) =
      Except.error { code := "EACCES" } ∧
    listFsCandidates (Except.error { code := "EACCES" }) =
      Except.error { code := "EACCES" } :=
  ⟨c5_failure_policy.1 _, c5_failure_policy.2.1 _ _,
   c5_failure_policy.2.2.1 _ _ (by rfl),
   c5_failure_policy.2.2.2.1 _ _ (by decide),
   c5_failure_policy.2.2.2.2 _ (by decide)⟩

/-- C6 (confirmed): listing a missing (`ENOENT`) or empty data root yields
an empty sequence and no error on both backends, and a missing candidate
directory is treated the same way by the session lister. -/
theorem c6_missing_root_empty :
    listFsCandidates (Except.error { code := "ENOENT" }) = Except.ok [] ∧
    listFsCandidates (Except.ok []) = Except.ok [] ∧
    (∀ cid, listFsSessions cid (Except.error { code := "ENOENT" }) =
      Except.ok []) ∧
    (∀ cid, listFsSessions cid (Except.ok []) = Except.ok []) ∧
    listS3Candidates (Except.ok []) = [] ∧
    (∀ cid, listS3Sessions cid (Except.ok []) = []) := by
  exact ⟨rfl, rfl, fun cid => rfl, fun cid => rfl, rfl, fun cid => rfl⟩

/-- C7 (confirmed): a malformed or unreadable `metadata.json` or
`candidate_profile.json` never aborts a listing. On the filesystem backend
the listing still returns one record per session directory and the affected
session is still included; an errored metadata read leaves the record with
the empty `{}` metadata, an errored profile read leaves the empty profile
summary. The S3 materializer behaves the same way. -/
theorem c7_malformed_tolerated :
    (∀ cid dirs out, listFsSessions cid (Except.ok dirs) = Except.ok out →
      out.length = (dirs.filter (fun d => d.isDir)).length ∧
      ∀ d ∈ dirs, d.isDir = true → materializeFsSession cid d ∈ out) ∧
    (∀ cid (d : FsSessionDir) msg, d.metaDoc = Except.error msg →
      (materializeFsSession cid d).metadata = emptyMetadata) ∧
    (∀ cid (d : FsSessionDir) msg, d.profileDoc = Except.error msg →
      (materializeFsSession cid d).candidateProfile = emptyProfileSummary) ∧
    (∀ cid (s : S3SessionData) msg, s.listFault = none →
      s.metaDoc = Except.error msg →
      (getS3SessionData cid s).isSome = true ∧
      ∀ r, getS3SessionData cid s = some r → r.metadata = emptyMetadata) ∧
    (∀ cid (s : S3SessionData) msg, s.listFault = none →
      s.profileDoc = Except.error msg →
      ∀ r, getS3SessionData cid s = some r →
        r.candidateProfile = emptyProfileSummary) := by
  refine ⟨?_, ?_, ?_, ?_, ?_⟩
  · intro cid dirs out hout
    have heq : out =
        sortSessions
          ((dirs.filter (fun d => d.isDir)).map (materializeFsSession cid)) := by
      simpa [listFsSessions] using hout.symm
    subst heq
    constructor
    · simp [sortSessions, List.length_insertionSort]
    · intro d hd hdir
      refine (perm_sortSessions _).mem_iff.mpr ?_
      exact List.mem_map_of_mem _ (List.mem_filter.mpr ⟨hd, by simp [hdir]⟩)
  · intro cid d msg hm
    by_cases h : (classifySlots d.files).metadata.isSome <;>
      simp [materializeFsSession, hm, h]
  · intro cid d msg hp
    by_cases h : (classifySlots d.files).profile.isSome <;>
      simp [materializeFsSession, hp, h]
  · intro cid s msg hF hm
    constructor
    · simp [getS3SessionData, hF]
    · intro r hr
      simp only [getS3SessionData, hF] at hr
      cases hr
      by_cases h :
          (classifySlots (s.objectKeys.map keyBasename)).metadata.isSome <;>
        simp [hm, h]
  · intro cid s msg hF hp r hr
    simp only [getS3SessionData, hF] at hr
    cases hr
    by_cases h :
        (classifySlots (s.objectKeys.map keyBasename)).profile.isSome <;>
      simp [hp, h]

/-- C7 (witness): a concrete listing with one well-formed session and one
session whose metadata and profile reads fail: both sessions are returned,
and the malformed one carries the empty metadata and profile objects. -/
theorem c7_malformed_tolerated_witness :
    materializeFsSession "cand"
          { name := "bad", isDir := true,
            files := ["transcript.txt", "candidate_profile.json",
                      "metadata.json"],
            metaDoc := Except.error "Unexpected token in JSON",
            profileDoc := Except.error "Unexpected token in JSON" } ∈
        ((listFsSessions "cand"
            (Except.ok
              [{ name := "bad", isDir := true,
                 files := ["transcript.txt", "candidate_profile.json",
                           "metadata.json"],
                 metaDoc := Except.error "Unexpected token in JSON",
                 profileDoc := Except.error "Unexpected token in JSON" },
               { name := "good", isDir := true,
                 files := ["transcript.txt", "candidate_profile.json",
                           "metadata.json"],
                 metaDoc := Except.ok { emptyMetadata with processed_at := some 9 },
                 profileDoc := Except.error "fine" }])).toOption.getD []) ∧
    (materializeFsSession "cand"
        { name := "bad", isDir := true,
          files := ["transcript.txt", "candidate_profile.json",
                    "metadata.json"],
          metaDoc := Except.error "Unexpected token in JSON",
          profileDoc := Except.error "Unexpected token in JSON" }).metadata =
      emptyMetadata := by
  refine ⟨?_, c7_malformed_tolerated.2.1 "cand" _ "Unexpected token in JSON" (by rfl)⟩
  have h := c7_malformed_tolerated.1 "cand"
    [{ name := "bad", isDir := true,
       files := ["transcript.txt", "candidate_profile.json", "metadata.json"],
       metaDoc := Except.error "Unexpected token in JSON",
       profileDoc := Except.error "Unexpected token in JSON" },
     { name := "good", isDir := true,
       files := ["transcript.txt", "candidate_profile.json", "metadata.json"],
       metaDoc := Except.ok { emptyMetadata with processed_at := some 9 },
       profileDoc := Except.error "fine" }]
    ((listFsSessions "cand"
        (Except.ok
          [{ name := "bad", isDir := true,
             files := ["transcript.txt", "candidate_profile.json",
                       "metadata.json"],
             metaDoc := Except.error "Unexpected token in JSON",
             profileDoc := Except.error "Unexpected token in JSON" },
           { name := "good", isDir := true,
             files := ["transcript.txt", "candidate_profile.json",
                       "metadata.json"],
             metaDoc := Except.ok { emptyMetadata with processed_at := some 9 },
             profileDoc := Except.error "fine" }])).toOption.getD [])
    (by rfl)
  exact h.2 _ (by simp) (by rfl)

theorem lookup_put_same (st : Store) (k v : String) :
    lookupStore (putStore st k v) k = some v := by
  simp [lookupStore, putStore]

theorem lookup_put_other (st : Store) (k k' v : String) (h : k ≠ k') :
    lookupStore (putStore st k v) k' = lookupStore st k' := by
  simp only [lookupStore, putStore]
  rw [List.find?_cons_of_neg]
  simp [h]

theorem runWrites_flag_of_fault (fails : String → Bool)
    (ws : List (String × String)) (w : String × String) (hw : w ∈ ws)
    (hf : fails w.1 = true) :
    ∀ st, (runWrites fails st ws).2 = true := by
  induction ws with
  | nil => cases hw
  | cons a t ih =>
    intro st
    rcases List.mem_cons.mp hw with rfl | hmem
    · simp [runWrites, hf]
    · simp [runWrites, ih hmem]

theorem runWrites_flag_noFail (ws : List (String × String)) :
    ∀ st, (runWrites noFail st ws).2 = false := by
  induction ws with
  | nil => intro st; rfl
  | cons a t ih => intro st; simp [runWrites, noFail, ih]

theorem runWrites_lookup_unchanged (fails : String → Bool)
    (ws : List (String × String)) (k : String) (h : ∀ w ∈ ws, w.1 ≠ k) :
    ∀ st, lookupStore (runWrites fails st ws).1 k = lookupStore st k := by
  induction ws with
  | nil => intro st; rfl
  | cons a t ih =>
    intro st
    simp only [runWrites]
    rw [ih (fun w hw => h w (by simp [hw]))]
    by_cases hfa : fails a.1
    · rw [if_pos hfa]
    · rw [if_neg hfa, lookup_put_other _ _ _ _ (h a (by simp))]

theorem runWrites_lookup_write (fails : String → Bool)
    (ws : List (String × String))
    (hdist : ws.Pairwise (fun a b => a.1 ≠ b.1)) (w : String × String)
    (hw : w ∈ ws) (hok : fails w.1 = false) :
    ∀ st, lookupStore (runWrites fails st ws).1 w.1 = some w.2 := by
  induction ws with
  | nil => cases hw
  | cons a t ih =>
    intro st
    rcases List.mem_cons.mp hw with rfl | hmem
    · simp only [runWrites]
      rw [runWrites_lookup_unchanged _ _ _
        (fun x hx => (List.rel_of_pairwise_cons hdist hx).symm)]
      rw [if_neg (by simp [hok]), lookup_put_same]
    · simp only [runWrites]
      exact ih hdist.of_cons hmem _

theorem joinP_right_inj (f a b : String) (h : joinP f a = joinP f b) :
    a = b := by
  unfold joinP at h
  have hd : (f ++ "/").data ++ a.data = (f ++ "/").data ++ b.data := by
    have := congrArg String.data h
    rwa [String.data_append, String.data_append] at this
  have hab : a.data = b.data := List.append_cancel_left hd
  cases a
  cases b
  exact congrArg String.mk hab

theorem audioFilename_data (sid ext : String) :
    (audioFilename sid ext).data =
      'a' :: (['u', 'd', 'i', 'o', '_'] ++ sid.data ++ ext.data) := by
  unfold audioFilename
  rw [String.data_append, String.data_append]
  have h : ("audio_" : String).data = 'a' :: ['u', 'd', 'i', 'o', '_'] := rfl
  rw [h]
  simp

theorem audioFilename_ne_transcript (sid ext : String) :
    audioFilename sid ext ≠ "transcript.txt" := by
  intro h
  have := congrArg String.data h
  rw [audioFilename_data] at this
  exact absurd (List.head_eq_of_cons_eq this) (by decide)

theorem audioFilename_ne_profile (sid ext : String) :
    audioFilename sid ext ≠ "candidate_profile.json" := by
  intro h
  have := congrArg String.data h
  rw [audioFilename_data] at this
  exact absurd (List.head_eq_of_cons_eq this) (by decide)

theorem audioFilename_ne_metadata (sid ext : String) :
    audioFilename sid ext ≠ "metadata.json" := by
  intro h
  have := congrArg String.data h
  rw [audioFilename_data] at this
  exact absurd (List.head_eq_of_cons_eq this) (by decide)

theorem fsWrites_pairwise (root sid : String) (inp : SaveInput) :
    (fsWrites root sid inp).Pairwise (fun a b => a.1 ≠ b.1) := by
  unfold fsWrites
  have inj := joinP_right_inj (joinP (joinP root inp.candidateId) sid)
  cases inp.audio with
  | none =>
    simp only [List.append_nil]
    refine List.Pairwise.cons ?_ (List.Pairwise.cons ?_ (List.pairwise_singleton _ _))
    · intro b hb h
      rcases List.mem_cons.mp hb with rfl | hb
      · exact absurd (inj _ _ h) (by decide)
      · rcases List.mem_singleton.mp hb with rfl
        exact absurd (inj _ _ h) (by decide)
    · intro b hb h
      rcases List.mem_singleton.mp hb with rfl
      exact absurd (inj _ _ h) (by decide)
  | some a =>
    refine List.Pairwise.cons ?_ (List.Pairwise.cons ?_
      (List.Pairwise.cons ?_ (List.pairwise_singleton _ _)))
    · intro b hb h
      rcases List.mem_cons.mp hb with rfl | hb
      · exact absurd (inj _ _ h) (by decide)
      rcases List.mem_cons.mp hb with rfl | hb
      · exact absurd (inj _ _ h) (by decide)
      rcases List.mem_singleton.mp hb with rfl
      exact absurd (inj _ _ h).symm (audioFilename_ne_transcript _ _)
    · intro b hb h
      rcases List.mem_cons.mp hb with rfl | hb
      · exact absurd (inj _ _ h) (by decide)
      rcases List.mem_singleton.mp hb with rfl
      exact absurd (inj _ _ h).symm (audioFilename_ne_profile _ _)
    · intro b hb h
      rcases List.mem_singleton.mp hb with rfl
      exact absurd (inj _ _ h).symm (audioFilename_ne_metadata _ _)

theorem saveCandidateData_fs_eq (root : String) (t : LocalTime)
    (inp : SaveInput) (fails : String → Bool) (st : Store) :
    saveCandidateData "filesystem" root t inp fails st =
      saveToFilesystem root (sessionIdOf t) inp fails st := rfl

theorem saveToFilesystem_ok (root sid : String) (inp : SaveInput)
    (st : Store) :
    (saveToFilesystem root sid inp noFail st).1 =
      Except.ok { storageType := "filesystem",
                  candidateId := inp.candidateId, sessionId := sid } := by
  unfold saveToFilesystem
  simp [runWrites_flag_noFail]

theorem saveToFilesystem_lookup (root sid : String) (inp : SaveInput)
    (st : Store) (w : String × String) (hw : w ∈ fsWrites root sid inp) :
    lookupStore (saveToFilesystem root sid inp noFail st).2 w.1 = some w.2 :=
  runWrites_lookup_write noFail _ (fsWrites_pairwise root sid inp) w hw rfl st

/-- C8 (counterexample): two saves for the same candidate in the same second
share the sessionId `20240101-000000-IST`, but the second save's audio
artifact — uploaded as `b.wav`, which the upload filter accepts by mimetype —
lands at `audio_20240101-000000-IST.wav` and does **not** replace the first
save's audio artifact `audio_20240101-000000-IST.mp3`, which survives with
its original content: the audio artifact kind is written by both calls yet
not replaced. -/
theorem c8_overwrite_counterexample :
    uploadAccepted "b.wav" "audio/mpeg" = true ∧
    (saveCandidateData "filesystem" "candidate-data" ⟨2024, 1, 1, 0, 0, 0⟩
        { candidateId := "cand", transcript := "T2", profileJson := "P2",
          metadataJson := "M2", audio := some { originalname := "b.wav", content := "A2" },
          generatedHtml := none, generatedPdf := none } noFail
        (saveCandidateData "filesystem" "candidate-data" ⟨2024, 1, 1, 0, 0, 0⟩
          { candidateId := "cand", transcript := "T1", profileJson := "P1",
            metadataJson := "M1",
            audio := some { originalname := "a.mp3", content := "A1" },
            generatedHtml := none, generatedPdf := none } noFail []).2).1 =
      Except.ok { storageType := "filesystem", candidateId := "cand",
                  sessionId := "20240101-000000-IST" } ∧
    lookupStore
        (saveCandidateData "filesystem" "candidate-data" ⟨2024, 1, 1, 0, 0, 0⟩
          { candidateId := "cand", transcript := "T2", profileJson := "P2",
            metadataJson := "M2",
            audio := some { originalname := "b.wav", content := "A2" },
            generatedHtml := none, generatedPdf := none } noFail
          (saveCandidateData "filesystem" "candidate-data" ⟨2024, 1, 1, 0, 0, 0⟩
            { candidateId := "cand", transcript := "T1", profileJson := "P1",
              metadataJson := "M1",
              audio := some { originalname := "a.mp3", content := "A1" },
              generatedHtml := none, generatedPdf := none } noFail []).2).2
        "candidate-data/cand/20240101-000000-IST/audio_20240101-000000-IST.mp3" =
      some "A1" ∧
    lookupStore
        (saveCandidateData "filesystem" "candidate-data" ⟨2024, 1, 1, 0, 0, 0⟩
          { candidateId := "cand", transcript := "T2", profileJson := "P2",
            metadataJson := "M2",
            audio := some { originalname := "b.wav", content := "A2" },
            generatedHtml := none, generatedPdf := none } noFail
          (saveCandidateData "filesystem" "candidate-data" ⟨2024, 1, 1, 0, 0, 0⟩
            { candidateId := "cand", transcript := "T1", profileJson := "P1",
              metadataJson := "M1",
              audio := some { originalname := "a.mp3", content := "A1" },
              generatedHtml := none, generatedPdf := none } noFail []).2).2
        "candidate-data/cand/20240101-000000-IST/audio_20240101-000000-IST.wav" =
      some "A2" := by
  exact ⟨by decide, by rfl, by decide, by decide⟩

/-- C8 (amended): two `saveCandidateData` calls for the same candidate in
the same second (same wall-clock reading in the configured zone) both
succeed with the same sessionId, and the second call's artifacts replace the
first's at every key the second call writes: always for
transcript/profile/metadata (fixed filenames), and for the audio artifact at
the filename generated from the second upload's extension — so the first
call's audio file is replaced exactly when the two uploads generate the same
extension, and survives otherwise (see the counterexample). -/
theorem c8_same_second_amended (t : LocalTime) (root : String)
    (inp1 inp2 : SaveInput) (st : Store) :
    (saveCandidateData "filesystem" root t inp1 noFail st).1 =
      Except.ok { storageType := "filesystem",
                  candidateId := inp1.candidateId,
                  sessionId := sessionIdOf t } ∧
    (saveCandidateData "filesystem" root t inp2 noFail
        (saveCandidateData "filesystem" root t inp1 noFail st).2).1 =
      Except.ok { storageType := "filesystem",
                  candidateId := inp2.candidateId,
                  sessionId := sessionIdOf t } ∧
    lookupStore
        (saveCandidateData "filesystem" root t inp2 noFail
          (saveCandidateData "filesystem" root t inp1 noFail st).2).2
        (joinP (joinP (joinP root inp2.candidateId) (sessionIdOf t))
          "transcript.txt") = some inp2.transcript ∧
    lookupStore
        (saveCandidateData "filesystem" root t inp2 noFail
          (saveCandidateData "filesystem" root t inp1 noFail st).2).2
        (joinP (joinP (joinP root inp2.candidateId) (sessionIdOf t))
          "candidate_profile.json") = some inp2.profileJson ∧
    lookupStore
        (saveCandidateData "filesystem" root t inp2 noFail
          (saveCandidateData "filesystem" root t inp1 noFail st).2).2
        (joinP (joinP (joinP root inp2.candidateId) (sessionIdOf t))
          "metadata.json") = some inp2.metadataJson ∧
    (∀ a2, inp2.audio = some a2 →
      lookupStore
          (saveCandidateData "filesystem" root t inp2 noFail
            (saveCandidateData "filesystem" root t inp1 noFail st).2).2
          (joinP (joinP (joinP root inp2.candidateId) (sessionIdOf t))
            (audioFilename (sessionIdOf t)
              (audioExtension a2.originalname))) = some a2.content) := by
  rw [saveCandidateData_fs_eq, saveCandidateData_fs_eq]
  refine ⟨saveToFilesystem_ok _ _ _ _, saveToFilesystem_ok _ _ _ _, ?_, ?_, ?_, ?_⟩
  · exact saveToFilesystem_lookup _ _ _ _
      (joinP (joinP (joinP root inp2.candidateId) (sessionIdOf t))
        "transcript.txt", inp2.transcript) (by simp [fsWrites])
  · exact saveToFilesystem_lookup _ _ _ _
      (joinP (joinP (joinP root inp2.candidateId) (sessionIdOf t))
        "candidate_profile.json", inp2.profileJson) (by simp [fsWrites])
  · exact saveToFilesystem_lookup _ _ _ _
      (joinP (joinP (joinP root inp2.candidateId) (sessionIdOf t))
        "metadata.json", inp2.metadataJson) (by simp [fsWrites])
  · intro a2 ha2
    exact saveToFilesystem_lookup _ _ _ _
      (joinP (joinP (joinP root inp2.candidateId) (sessionIdOf t))
        (audioFilename (sessionIdOf t) (audioExtension a2.originalname)),
        a2.content) (by simp [fsWrites, ha2])

/-- C8 (witness): the amended theorem at a concrete same-second pair of
saves — the audio hypothesis discharged with the second call's `b.mp3`
upload. -/
theorem c8_same_second_amended_witness :
    lookupStore
        (saveCandidateData "filesystem" "candidate-data" ⟨2024, 1, 1, 0, 0, 0⟩
          { candidateId := "cand", transcript := "T2", profileJson := "P2",
            metadataJson := "M2",
            audio := some { originalname := "b.mp3", content := "A2" },
            generatedHtml := none, generatedPdf := none } noFail
          (saveCandidateData "filesystem" "candidate-data"
            ⟨2024, 1, 1, 0, 0, 0⟩
            { candidateId := "cand", transcript := "T1", profileJson := "P1",
              metadataJson := "M1",
              audio := some { originalname := "a.mp3", content := "A1" },
              generatedHtml := none, generatedPdf := none } noFail []).2).2
        (joinP
          (joinP (joinP "candidate-data" "cand")
            (sessionIdOf ⟨2024, 1, 1, 0, 0, 0⟩))
          (audioFilename (sessionIdOf ⟨2024, 1, 1, 0, 0, 0⟩)
            (audioExtension "b.mp3"))) = some "A2" :=
  (c8_same_second_amended ⟨2024, 1, 1, 0, 0, 0⟩ "candidate-data"
      { candidateId := "cand", transcript := "T1", profileJson := "P1",
        metadataJson := "M1",
        audio := some { originalname := "a.mp3", content := "A1" },
        generatedHtml := none, generatedPdf := none }
      { candidateId := "cand", transcript := "T2", profileJson := "P2",
        metadataJson := "M2",
        audio := some { originalname := "b.mp3", content := "A2" },
        generatedHtml := none, generatedPdf := none } []).2.2.2.2.2
    { originalname := "b.mp3", content := "A2" } (by rfl)

/-- C9 (confirmed): if any single artifact write of a save rejects, the
whole operation reports failure, on either backend; yet every sibling write
that did not reject has flushed its content, observable at its key in the
post state — nothing is rolled back. (For the object store the generated
html/pdf filenames travel with the inputs, so pairwise-distinct write keys —
which every pipeline-generated input satisfies — are assumed for the
persistence conjunct.) -/
theorem c9_write_failure :
    (∀ root sid inp (fails : String → Bool) st (w : String × String),
      w ∈ fsWrites root sid inp → fails w.1 = true →
      (saveToFilesystem root sid inp fails st).1 =
        Except.error "write failed") ∧
    (∀ root sid inp (fails : String → Bool) st (w : String × String),
      w ∈ fsWrites root sid inp → fails w.1 = false →
      lookupStore (saveToFilesystem root sid inp fails st).2 w.1 =
        some w.2) ∧
    (∀ pre sid inp (fails : String → Bool) st (w : String × String),
      w ∈ s3Writes pre sid inp → fails w.1 = true →
      (saveToS3 pre sid inp fails st).1 = Except.error "write failed") ∧
    (∀ pre sid inp (fails : String → Bool) st (w : String × String),
      (s3Writes pre sid inp).Pairwise (fun a b => a.1 ≠ b.1) →
      w ∈ s3Writes pre sid inp → fails w.1 = false →
      lookupStore (saveToS3 pre sid inp fails st).2 w.1 = some w.2) := by
  refine ⟨?_, ?_, ?_, ?_⟩
  · intro root sid inp fails st w hw hf
    unfold saveToFilesystem
    simp [runWrites_flag_of_fault fails _ w hw hf st]
  · intro root sid inp fails st w hw hok
    exact runWrites_lookup_write fails _ (fsWrites_pairwise root sid inp)
      w hw hok st
  · intro pre sid inp fails st w hw hf
    unfold saveToS3
    simp [runWrites_flag_of_fault fails _ w hw hf st]
  · intro pre sid inp fails st w hdist hw hok
    exact runWrites_lookup_write fails _ hdist w hw hok st

/-- C9 (witness): one save whose metadata write rejects — the operation
reports failure while the sibling transcript write persists. -/
theorem c9_write_failure_witness :
    (saveToFilesystem "candidate-data" "20240101-000000-IST"
        { candidateId := "cand", transcript := "T1", profileJson := "P1",
          metadataJson := "M1", audio := none, generatedHtml := none,
          generatedPdf := none }
        (fun k => k == "candidate-data/cand/20240101-000000-IST/metadata.json")
        []).1 = Except.error "write failed" ∧
    lookupStore
        (saveToFilesystem "candidate-data" "20240101-000000-IST"
          { candidateId := "cand", transcript := "T1", profileJson := "P1",
            metadataJson := "M1", audio := none, generatedHtml := none,
            generatedPdf := none }
          (fun k =>
            k == "candidate-data/cand/20240101-000000-IST/metadata.json")
          []).2
        "candidate-data/cand/20240101-000000-IST/transcript.txt" =
      some "T1" :=
  ⟨c9_write_failure.1 "candidate-data" "20240101-000000-IST" _ _ []
      ("candidate-data/cand/20240101-000000-IST/metadata.json", "M1")
      (by decide) (by decide),
   c9_write_failure.2.1 "candidate-data" "20240101-000000-IST" _ _ []
      ("candidate-data/cand/20240101-000000-IST/transcript.txt", "T1")
      (by decide) (by decide)⟩

/-- C10 (confirmed): sanitization maps the name `John/Doe!` to the stem
`John_Doe_`, which contains neither `/` nor `!`; the generated html and pdf
filenames use that stem; every character of a sanitized name is in
`[A-Za-z0-9_]` (characters outside the class are replaced by `_`); and a
missing or empty candidate name falls back to the literal stem
`candidate`. -/
theorem c10_sanitization :
    sanitizeName "John/Doe!" = "John_Doe_" ∧
    (∀ ts, htmlFilename (some "John/Doe!") ts =
      "John_Doe_" ++ "_profile_" ++ ts ++ ".html") ∧
    (∀ ts, pdfFilename (some "John/Doe!") ts =
      "John_Doe_" ++ "_profile_" ++ ts ++ ".pdf") ∧
    (∀ c ∈ (sanitizeName "John/Doe!").data, c ≠ '/' ∧ c ≠ '!') ∧
    (∀ s, ∀ c ∈ (sanitizeName s).data, c.isAlphanum = true ∨ c = '_') ∧
    profileStem none = "candidate" ∧
    profileStem (some "") = "candidate" := by
  have hsan : sanitizeName "John/Doe!" = "John_Doe_" := by decide
  refine ⟨hsan, ?_, ?_, by decide, ?_, rfl, rfl⟩
  · intro ts
    have hstem : profileStem (some "John/Doe!") = "John_Doe_" := by decide
    unfold htmlFilename
    rw [hstem]
  · intro ts
    have hstem : profileStem (some "John/Doe!") = "John_Doe_" := by decide
    unfold pdfFilename
    rw [hstem]
  · intro s c hc
    unfold sanitizeName at hc
    obtain ⟨c0, _, rfl⟩ := List.mem_map.mp hc
    by_cases h : c0.isAlphanum
    · left
      simp [h]
    · right
      simp [h]

/-- C10 (witness): the character-class conjunct applied at the concrete
name `Jo hn9` and its sanitized character `_`. -/
theorem c10_sanitization_witness :
    ('_' : Char).isAlphanum = true ∨ ('_' : Char) = '_' :=
  c10_sanitization.2.2.2.2.1 "Jo hn9" '_' (by decide)
